import Mathlib

/-!
Verification of the elaunira-airflow-providers-r2index provider.

Shallow embedding of `hooks/r2index.py`, `operators/r2index.py` and
`links/r2index.py`.  Python dict values that flow through the operator
results and XCom are modelled by the JSON-like type `JVal`; Python's
truthiness tests are made explicit; code that may raise is modelled in
`Except String` (the error value is `str(e)`); external collaborators
(Airflow connection store, Vault backend, environment variables, the
R2Index file client) are parameters.
-/

namespace R2Index

/-- JSON-like values, as held in the Python dicts the provider builds and
returns (strings, `None`, and string-keyed dicts). -/
inductive JVal where
  | str : String → JVal
  | obj : List (String × JVal) → JVal
  | null : JVal
deriving Repr

/-- Python dict with `JVal` values, as an association list (first binding
wins on lookup, matching dict semantics for the dicts built here, which
never repeat a key). -/
abbrev Dict := List (String × JVal)

/-- `d.get(k)` on a Python dict. -/
def dictGet (d : Dict) (k : String) : Option JVal :=
  List.lookup k d

/-- `v.get(k)` when `v` is a dict value; `none` otherwise. -/
def JVal.getKey : JVal → String → Option JVal
  | .obj d, k => dictGet d k
  | _, _ => none

/-- Python truthiness of a `JVal`: `""`, `{}` and `None` are falsy. -/
def JVal.pyTruthy : JVal → Bool
  | .str s => s ≠ ""
  | .obj [] => false
  | .obj (_ :: _) => true
  | .null => false

/-- Python truthiness of an optional string (`None` and `""` are falsy). -/
def pyTruthyOpt : Option String → Bool
  | none => false
  | some s => s ≠ ""

/-- Python `a or b` where `a` is an optional string field and `b` a string
default (used for `item.r2index_conn_id or self.r2index_conn_id` and
`item.bucket or self.bucket`). -/
def pyOrStr (a : Option String) (b : String) : String :=
  match a with
  | some s => if s = "" then b else s
  | none => b

/-- The five-field client configuration dict built by the hook
(`index_api_url`, `index_api_token`, `r2_access_key_id`,
`r2_secret_access_key`, `r2_endpoint_url`); each value is a string or
`None`. -/
structure ConnConfig where
  index_api_url : Option String
  index_api_token : Option String
  r2_access_key_id : Option String
  r2_secret_access_key : Option String
  r2_endpoint_url : Option String
deriving Repr, DecidableEq

/-- The process environment restricted to the five variables the hook
reads; `none` models an unset variable (`os.environ.get` returns `None`). -/
structure Env where
  r2index_api_url : Option String
  r2index_api_token : Option String
  r2_access_key_id : Option String
  r2_secret_access_key : Option String
  r2_endpoint_url : Option String

/-- `R2IndexHook._get_config_from_env`. -/
def get_config_from_env (env : Env) : ConnConfig :=
  { index_api_url := env.r2index_api_url
    index_api_token := env.r2index_api_token
    r2_access_key_id := env.r2_access_key_id
    r2_secret_access_key := env.r2_secret_access_key
    r2_endpoint_url := env.r2_endpoint_url }

/-- Split a character list at the LAST occurrence of `sep`:
`some (l, r)` with `l ++ sep :: r` the input and no `sep` in `r`, or
`none` when `sep` does not occur.  Models Python `s.rsplit(sep, 1)`. -/
def rsplitLast (sep : Char) : List Char → Option (List Char × List Char)
  | [] => none
  | c :: cs =>
    match rsplitLast sep cs with
    | some (l, r) => some (c :: l, r)
    | none => if c = sep then some ([], cs) else none

/-- `R2IndexHook._parse_secret_ref`: `"path#key"` splits on the last `#`
into `(path, key)`; a reference without `#` is the whole path, with
`default_key` as key. -/
def parse_secret_ref (secret_ref : String) (default_key : String) :
    String × String :=
  match rsplitLast '#' secret_ref.toList with
  | some (p, k) => (String.mk p, String.mk k)
  | none => (secret_ref, default_key)

/-- The Vault/OpenBao backend: `VaultHook.get_secret` either raises
(`Except.error`, a wholesale backend error) or returns the secret data at
a path — `none` when the secret is absent, else a key→value mapping. -/
structure Vault where
  get_secret : String → Except String (Option (List (String × String)))

/-- One step of `get_secret_value` inside `_get_config_from_vault`:
resolve `config_key` through the `secrets` mapping, fetching the secret
path from the vault unless it is already in `secret_cache`.  Returns the
value (or `none` when absent) and the updated cache; a raising
`get_secret` propagates as `Except.error`. -/
def get_secret_value (vault : Vault) (secrets : List (String × String))
    (secret_cache : List (String × List (String × String)))
    (config_key : String) :
    Except String (Option String × List (String × List (String × String))) :=
  match List.lookup config_key secrets with
  | none => .ok (none, secret_cache)
  | some secret_ref =>
    if secret_ref = "" then .ok (none, secret_cache)
    else
      let pk := parse_secret_ref secret_ref config_key
      match List.lookup pk.1 secret_cache with
      | some data => .ok (List.lookup pk.2 data, secret_cache)
      | none =>
        match vault.get_secret pk.1 with
        | .error e => .error e
        | .ok data =>
          let stored := data.getD []
          .ok (List.lookup pk.2 stored, (pk.1, stored) :: secret_cache)

/-- `R2IndexHook._get_config_from_vault`: fetch the five config keys
through the secret cache; any exception from the vault backend is caught
and yields `none` ("no config"). -/
def get_config_from_vault (vault : Vault)
    (secrets : List (String × String)) : Option ConnConfig :=
  match get_secret_value vault secrets [] "r2index_api_url" with
  | .error _ => none
  | .ok a =>
    match get_secret_value vault secrets a.2 "r2index_api_token" with
    | .error _ => none
    | .ok b =>
      match get_secret_value vault secrets b.2 "r2_access_key_id" with
      | .error _ => none
      | .ok c =>
        match get_secret_value vault secrets c.2 "r2_secret_access_key" with
        | .error _ => none
        | .ok d =>
          match get_secret_value vault secrets d.2 "r2_endpoint_url" with
          | .error _ => none
          | .ok e => some ⟨a.1, b.1, c.1, d.1, e.1⟩

/-- An Airflow connection as the hook reads it: `host`, `password`, and
the `extra` JSON fields it consults.  `vault_secrets_mapping` is held
already decoded (the source accepts it either as a JSON object or as a
JSON-encoded string and `json.loads` the latter). -/
structure Connection where
  host : Option String
  password : Option String
  vault_conn_id : Option String
  vault_secrets_mapping : Option (List (String × String))
  vault_namespace : Option String
  r2_access_key_id : Option String
  r2_secret_access_key : Option String
  r2_endpoint_url : Option String

/-- Python truthiness of the decoded `vault_secrets_mapping`
(`if not secrets_raw`): absent or empty is falsy. -/
def pyTruthyMapping : Option (List (String × String)) → Bool
  | none => false
  | some [] => false
  | some (_ :: _) => true

/-- The Airflow connection store: `BaseHook.get_connection` either raises
(`Except.error`) or returns the connection. -/
structure ConnStore where
  get_connection : String → Except String Connection

/-- `R2IndexHook._get_config_from_connection`: a raising connection
lookup is caught (`none`); a connection with a truthy `vault_conn_id`
resolves through the vault (requiring a truthy `vault_secrets_mapping`);
otherwise the direct fields are read. -/
def get_config_from_connection (store : ConnStore) (vault : Vault)
    (r2index_conn_id : String) : Option ConnConfig :=
  match store.get_connection r2index_conn_id with
  | .error _ => none
  | .ok conn =>
    if pyTruthyOpt conn.vault_conn_id then
      if pyTruthyMapping conn.vault_secrets_mapping then
        get_config_from_vault vault (conn.vault_secrets_mapping.getD [])
      else none
    else
      some { index_api_url := conn.host
             index_api_token := conn.password
             r2_access_key_id := conn.r2_access_key_id
             r2_secret_access_key := conn.r2_secret_access_key
             r2_endpoint_url := conn.r2_endpoint_url }

/-- `R2IndexUploadOperator._get_client_config` (textually identical in
the download operator): connection tier first, falling back to the
environment when it yields `None` or a config whose `index_api_url` is
falsy. -/
def get_client_config (store : ConnStore) (vault : Vault) (env : Env)
    (conn_id : String) : ConnConfig :=
  match get_config_from_connection store vault conn_id with
  | some config =>
    if pyTruthyOpt config.index_api_url then config
    else get_config_from_env env
  | none => get_config_from_env env

/-- `operators/r2index.py` `UploadItem`. -/
structure UploadItem where
  source : String
  category : String
  entity : String
  extension : String
  media_type : String
  destination_path : String
  destination_filename : String
  destination_version : String
  bucket : Option String := none
  name : Option String := none
  tags : Option (List String) := none
  extra : Option Dict := none
  create_checksum_files : Bool := false
  r2index_conn_id : Option String := none

/-- `operators/r2index.py` `DownloadItem`. -/
structure DownloadItem where
  source_path : String
  source_filename : String
  source_version : String
  destination : String
  bucket : Option String := none
  verify_checksum : Bool := true
  overwrite : Bool := true
  r2index_conn_id : Option String := none

/-- The external `AsyncR2IndexClient.upload` call, as a function of the
client configuration, the effective bucket, and the upload item's fields
(the operator-level `transfer_config`, constant across a batch, is part
of the function).  `.ok j` is `file_record.model_dump()`; `.error e` is a
raised exception with `str(e) = e`. -/
structure UploadClient where
  upload : ConnConfig → String → UploadItem → Except String JVal

/-- The external `AsyncR2IndexClient.download` call.  `.ok (p, rec)` is
`(str(downloaded_path), file_record.model_dump() if file_record else
None)`; `.error e` a raised exception. -/
structure DownloadClient where
  download : ConnConfig → String → DownloadItem → Except String (String × Option JVal)

/-- The mutable state one batch `execute` threads through its item tasks:
the `conn_configs` cache, plus instrumentation recording each
`_get_client_config` invocation (`resolve_log`) and each client transfer
attempt (`client_calls`).  asyncio schedules the per-item coroutines in
input order and `get_or_create_config` contains no suspension point, so
the cache updates happen atomically in task-start order; the sequential
threading below reproduces exactly that behaviour. -/
structure BatchState where
  conn_configs : List (String × ConnConfig) := []
  resolve_log : List String := []
  client_calls : Nat := 0
deriving Repr, DecidableEq

/-- The nested `get_or_create_config` of both operators' `execute`:
memoise `resolve` (`self._get_client_config`) per connection id in the
batch-local `conn_configs` cache. -/
def get_or_create_config (resolve : String → ConnConfig) (st : BatchState)
    (conn_id : String) : ConnConfig × BatchState :=
  match List.lookup conn_id st.conn_configs with
  | some config => (config, st)
  | none =>
    let config := resolve conn_id
    (config,
     { st with conn_configs := (conn_id, config) :: st.conn_configs
               resolve_log := st.resolve_log ++ [conn_id] })

namespace R2IndexUploadOperator

/-- The nested `upload_one` of `R2IndexUploadOperator.execute`: compute
the effective connection id and bucket, obtain the (cached)
configuration, call the client, and capture any raised exception as an
error dict carrying the message and the item's source. -/
def upload_one (client : UploadClient) (resolve : String → ConnConfig)
    (self_conn_id self_bucket : String) (st : BatchState)
    (item : UploadItem) : Dict × BatchState :=
  let conn_id := pyOrStr item.r2index_conn_id self_conn_id
  let bucket := pyOrStr item.bucket self_bucket
  let cs := get_or_create_config resolve st conn_id
  let st1 := { cs.2 with client_calls := cs.2.client_calls + 1 }
  match client.upload cs.1 bucket item with
  | .ok file_record => ([("status", .str "success"), ("file_record", file_record)], st1)
  | .error e =>
    ([("status", .str "error"), ("message", .str e), ("source", .str item.source)], st1)

/-- The nested `upload_all`: one task per item, gathered in input order
(`asyncio.gather` returns results in the order the coroutines were
passed, regardless of completion order). -/
def upload_all (client : UploadClient) (resolve : String → ConnConfig)
    (self_conn_id self_bucket : String) :
    List UploadItem → BatchState → List Dict × BatchState
  | [], st => ([], st)
  | item :: rest, st =>
    let rs := upload_one client resolve self_conn_id self_bucket st item
    let rest' := upload_all client resolve self_conn_id self_bucket rest rs.2
    (rs.1 :: rest'.1, rest'.2)

/-- `r.get("status") == "error"`. -/
def isErrorResult (r : Dict) : Bool :=
  match dictGet r "status" with
  | some (.str s) => s = "error"
  | _ => false

/-- `R2IndexUploadOperator.execute` after the gather: raise an
`AirflowException` reporting failed/total when any result is an error
dict, else return the list of `file_record` dumps.  (`r["file_record"]`
is modelled total with default `null`; every non-error result dict built
by `upload_one` carries the key.) -/
def execute (client : UploadClient) (resolve : String → ConnConfig)
    (self_conn_id self_bucket : String) (items : List UploadItem) :
    Except String (List JVal) × BatchState :=
  let ra := upload_all client resolve self_conn_id self_bucket items {}
  let results := ra.1
  let errors := results.filter isErrorResult
  if errors.isEmpty then
    (.ok (results.map fun r => (dictGet r "file_record").getD .null), ra.2)
  else
    (.error (toString errors.length ++ "/" ++ toString results.length ++ " uploads failed"),
     ra.2)

/-- The per-item outcome `upload_one` produces, as a function of the item
alone (the cache being a memo of the pure `resolve`). -/
def uploadOutcome (client : UploadClient) (resolve : String → ConnConfig)
    (self_conn_id self_bucket : String) (item : UploadItem) : Dict :=
  match client.upload (resolve (pyOrStr item.r2index_conn_id self_conn_id))
      (pyOrStr item.bucket self_bucket) item with
  | .ok file_record => [("status", .str "success"), ("file_record", file_record)]
  | .error e =>
    ([("status", .str "error"), ("message", .str e), ("source", .str item.source)])

end R2IndexUploadOperator

namespace R2IndexDownloadOperator

/-- The nested `download_one` of `R2IndexDownloadOperator.execute`. -/
def download_one (client : DownloadClient) (resolve : String → ConnConfig)
    (self_conn_id self_bucket : String) (st : BatchState)
    (item : DownloadItem) : Dict × BatchState :=
  let conn_id := pyOrStr item.r2index_conn_id self_conn_id
  let bucket := pyOrStr item.bucket self_bucket
  let cs := get_or_create_config resolve st conn_id
  let st1 := { cs.2 with client_calls := cs.2.client_calls + 1 }
  match client.download cs.1 bucket item with
  | .ok pr =>
    ([("status", .str "success"), ("path", .str pr.1),
      ("file_record", match pr.2 with | some j => j | none => .null)], st1)
  | .error e =>
    ([("status", .str "error"), ("message", .str e),
      ("source_path", .str item.source_path)], st1)

/-- The nested `download_all`. -/
def download_all (client : DownloadClient) (resolve : String → ConnConfig)
    (self_conn_id self_bucket : String) :
    List DownloadItem → BatchState → List Dict × BatchState
  | [], st => ([], st)
  | item :: rest, st =>
    let rs := download_one client resolve self_conn_id self_bucket st item
    let rest' := download_all client resolve self_conn_id self_bucket rest rs.2
    (rs.1 :: rest'.1, rest'.2)

/-- `R2IndexDownloadOperator.execute` after the gather: raise on any
error result, else return `{"path": ..., "file_record": ...}` per item. -/
def execute (client : DownloadClient) (resolve : String → ConnConfig)
    (self_conn_id self_bucket : String) (items : List DownloadItem) :
    Except String (List Dict) × BatchState :=
  let ra := download_all client resolve self_conn_id self_bucket items {}
  let results := ra.1
  let errors := results.filter R2IndexUploadOperator.isErrorResult
  if errors.isEmpty then
    (.ok (results.map fun r =>
      [("path", (dictGet r "path").getD .null),
       ("file_record", (dictGet r "file_record").getD .null)]), ra.2)
  else
    (.error (toString errors.length ++ "/" ++ toString results.length ++ " downloads failed"),
     ra.2)

/-- The per-item outcome `download_one` produces, as a function of the
item alone. -/
def downloadOutcome (client : DownloadClient) (resolve : String → ConnConfig)
    (self_conn_id self_bucket : String) (item : DownloadItem) : Dict :=
  match client.download (resolve (pyOrStr item.r2index_conn_id self_conn_id))
      (pyOrStr item.bucket self_bucket) item with
  | .ok pr =>
    [("status", .str "success"), ("path", .str pr.1),
     ("file_record", match pr.2 with | some j => j | none => .null)]
  | .error e =>
    [("status", .str "error"), ("message", .str e),
     ("source_path", .str item.source_path)]

end R2IndexDownloadOperator

/-- The `items` constructor argument: a single item or a list
(`list[UploadItem] | UploadItem`). -/
def normalize_upload_items : UploadItem ⊕ List UploadItem → List UploadItem
  | .inl item => [item]
  | .inr l => l

/-- `self.items = [items] if isinstance(items, DownloadItem) else items`. -/
def normalize_download_items : DownloadItem ⊕ List DownloadItem → List DownloadItem
  | .inl item => [item]
  | .inr l => l

/-- Python `a or b` on optional `JVal`s (used for
`result.get("id") or result.get("file_record", {}).get("id")`): a falsy
or absent left operand selects the right one. -/
def pyOrJVal (a : Option JVal) (b : Option JVal) : Option JVal :=
  match a with
  | some v => if v.pyTruthy then some v else b
  | none => b

/-- `result.get("file_record", {})` — default to the empty dict. -/
def getFileRecordD (v : JVal) : JVal :=
  match v with
  | .obj d => (dictGet d "file_record").getD (.obj [])
  | _ => .obj []

/-- How an f-string renders the extracted `file_id` (a string renders as
itself; `None` as `"None"`; the ids the provider produces are strings). -/
def JVal.pyFormat : JVal → String
  | .str s => s
  | .null => "None"
  | .obj _ => "\x7b...\x7d"

/-- `R2IndexFileLink.get_link`: read the persisted `return_value` XCom
(`none` models an absent XCom); when it is a truthy dict, extract
`result.get("id") or result.get("file_record", {}).get("id")` and, when
that id is truthy, render the file URL; otherwise return `""`. -/
def get_link (result : Option JVal) : String :=
  match result with
  | none => ""
  | some v =>
    match v with
    | .obj _ =>
      if v.pyTruthy then
        match pyOrJVal (v.getKey "id") ((getFileRecordD v).getKey "id") with
        | some file_id =>
          if file_id.pyTruthy then
            "https://r2index.elaunira.com/files/" ++ file_id.pyFormat
          else ""
        | none => ""
      else ""
    | _ => ""

/-! Derived per-item semantics used in the statements. -/

/-- Whether the client call for an upload item raises, as a function of
the item alone (the resolver being pure and memoised). -/
def uploadFailed (client : UploadClient) (resolve : String → ConnConfig)
    (cid bkt : String) (item : UploadItem) : Bool :=
  match client.upload (resolve (pyOrStr item.r2index_conn_id cid))
      (pyOrStr item.bucket bkt) item with
  | .ok _ => false
  | .error _ => true

/-- The `file_record` dump an upload item yields on success (`null` is
never reached on a non-failing item). -/
def uploadRecord (client : UploadClient) (resolve : String → ConnConfig)
    (cid bkt : String) (item : UploadItem) : JVal :=
  match client.upload (resolve (pyOrStr item.r2index_conn_id cid))
      (pyOrStr item.bucket bkt) item with
  | .ok file_record => file_record
  | .error _ => .null

/-- Whether the client call for a download item raises. -/
def downloadFailed (client : DownloadClient) (resolve : String → ConnConfig)
    (cid bkt : String) (item : DownloadItem) : Bool :=
  match client.download (resolve (pyOrStr item.r2index_conn_id cid))
      (pyOrStr item.bucket bkt) item with
  | .ok _ => false
  | .error _ => true

/-- The `\x7bpath, file_record\x7d` payload a download item yields on
success. -/
def downloadPayload (client : DownloadClient) (resolve : String → ConnConfig)
    (cid bkt : String) (item : DownloadItem) : Dict :=
  match client.download (resolve (pyOrStr item.r2index_conn_id cid))
      (pyOrStr item.bucket bkt) item with
  | .ok pr =>
    [("path", .str pr.1),
     ("file_record", match pr.2 with | some j => j | none => .null)]
  | .error _ => [("path", .null), ("file_record", .null)]

/-- Batch-state invariant maintained across item tasks: every cached
config agrees with the pure resolver, the resolver log is duplicate-free,
and a connection id is logged exactly when it is cached. -/
def StOK (resolve : String → ConnConfig) (st : BatchState) : Prop :=
  (∀ c cfg, List.lookup c st.conn_configs = some cfg → cfg = resolve c) ∧
  st.resolve_log.Nodup ∧
  (∀ c, c ∈ st.resolve_log ↔ (List.lookup c st.conn_configs).isSome = true)

/-! Concrete sample inputs, used by witnesses and counterexamples. -/

def sampleConfig : ConnConfig :=
  ⟨some "https://api", some "tok", some "ak", some "sk", some "ep"⟩

def sampleResolve : String → ConnConfig := fun _ => sampleConfig

def sampleRecord : JVal := .obj [("id", .str "abc123")]

def sampleUploadItem : UploadItem :=
  { source := "/tmp/a.csv", category := "c", entity := "e",
    extension := "csv", media_type := "text/csv", destination_path := "p",
    destination_filename := "f", destination_version := "v1" }

def badUploadItem : UploadItem :=
  { sampleUploadItem with source := "/tmp/bad.csv" }

def okUploadClient : UploadClient := ⟨fun _ _ _ => .ok sampleRecord⟩

def mixedUploadClient : UploadClient :=
  ⟨fun _ _ item =>
    if item.source = "/tmp/bad.csv" then .error "boom" else .ok sampleRecord⟩

def sampleDownloadItem : DownloadItem :=
  { source_path := "data/in", source_filename := "f", source_version := "v1",
    destination := "/tmp/out" }

def badDownloadItem : DownloadItem :=
  { sampleDownloadItem with source_path := "data/missing" }

def okDownloadClient : DownloadClient :=
  ⟨fun _ _ _ => .ok ("/tmp/out/f", some sampleRecord)⟩

def mixedDownloadClient : DownloadClient :=
  ⟨fun _ _ item =>
    if item.source_path = "data/missing" then .error "net down"
    else .ok ("/tmp/out/f", some sampleRecord)⟩

/-- A five-key vault secrets mapping on five distinct paths. -/
def vaultSecretsMapping5 : List (String × String) :=
  [("r2index_api_url", "pa#ka"), ("r2index_api_token", "pb#kb"),
   ("r2_access_key_id", "pc#kc"), ("r2_secret_access_key", "pd#kd"),
   ("r2_endpoint_url", "pe#ke")]

/-- A vault whose path `pc` (serving only `r2_access_key_id`) is absent
while the other four paths resolve. -/
def sampleVaultFun : String → Except String (Option (List (String × String))) :=
  fun p =>
    if p = "pa" then .ok (some [("ka", "https://api")])
    else if p = "pb" then .ok (some [("kb", "tok")])
    else if p = "pc" then .ok none
    else if p = "pd" then .ok (some [("kd", "sk")])
    else if p = "pe" then .ok (some [("ke", "ep")])
    else .ok none

def failingVaultFun : String → Except String (Option (List (String × String))) :=
  fun _ => .error "vault sealed"

def directConnection : Connection :=
  { host := some "https://direct", password := some "pw",
    vault_conn_id := none, vault_secrets_mapping := none,
    vault_namespace := none, r2_access_key_id := some "ak",
    r2_secret_access_key := some "sk", r2_endpoint_url := some "ep" }

/-- A connection carrying BOTH a vault reference and direct fields. -/
def vaultConnection : Connection :=
  { directConnection with
    vault_conn_id := some "openbao_default"
    vault_secrets_mapping := some vaultSecretsMapping5 }

def sampleStore : ConnStore :=
  ⟨fun cid =>
    if cid = "direct" then .ok directConnection
    else if cid = "vaulted" then .ok vaultConnection
    else .error "connection not found"⟩

def sampleEnv : Env :=
  ⟨some "https://env", some "envtok", some "envak", some "envsk", some "envep"⟩

def emptyEnv : Env := ⟨none, none, none, none, none⟩

def sampleVault : Vault := ⟨sampleVaultFun⟩

/-- A connection with direct fields but no usable API URL. -/
def emptyUrlConnection : Connection :=
  { directConnection with host := none }

def emptyUrlStore : ConnStore := ⟨fun _ => .ok emptyUrlConnection⟩

/-! Helper lemmas about `rsplitLast`. -/

theorem rsplitLast_eq_none_iff (sep : Char) (l : List Char) :
    rsplitLast sep l = none ↔ sep ∉ l := by
  induction l with
  | nil => simp [rsplitLast]
  | cons c cs ih =>
    simp only [rsplitLast]
    cases h : rsplitLast sep cs with
    | some pr =>
      obtain ⟨p, k⟩ := pr
      have hmem : sep ∈ cs := by
        by_contra hn
        have h0 := ih.mpr hn
        rw [h0] at h
        cases h
      simp [hmem]
    | none =>
      have hcs : sep ∉ cs := ih.mp h
      by_cases hc : c = sep
      · subst hc
        simp
      · simp [hc, hcs, Ne.symm hc]

theorem rsplitLast_eq_some (sep : Char) (l : List Char) :
    ∀ p k : List Char, rsplitLast sep l = some (p, k) →
      l = p ++ sep :: k ∧ sep ∉ k := by
  induction l with
  | nil => intro p k h; cases h
  | cons c cs ih =>
    intro p k h
    simp only [rsplitLast] at h
    cases hcs : rsplitLast sep cs with
    | some pr =>
      obtain ⟨p1, k1⟩ := pr
      rw [hcs] at h
      simp only [Option.some.injEq, Prod.mk.injEq] at h
      obtain ⟨hp, hk⟩ := h
      obtain ⟨hl, hnk⟩ := ih p1 k1 hcs
      subst hk
      constructor
      · rw [← hp, hl]; simp
      · exact hnk
    | none =>
      rw [hcs] at h
      by_cases hc : c = sep
      · subst hc
        rw [if_pos rfl] at h
        simp only [Option.some.injEq, Prod.mk.injEq] at h
        obtain ⟨hp, hk⟩ := h
        subst hp
        subst hk
        exact ⟨by simp, (rsplitLast_eq_none_iff _ cs).mp hcs⟩
      · rw [if_neg hc] at h
        cases h

/-! Helper lemmas about association-list lookup and the batch state. -/

theorem lookup_cons_self {β : Type} (k : String) (v : β)
    (rest : List (String × β)) : List.lookup k ((k, v) :: rest) = some v := by
  simp [List.lookup]

theorem lookup_cons_ne {β : Type} {c k : String} (v : β)
    (rest : List (String × β)) (h : ¬ c = k) :
    List.lookup c ((k, v) :: rest) = List.lookup c rest := by
  simp only [List.lookup]
  rw [beq_eq_false_iff_ne.mpr h]

theorem StOK_init (resolve : String → ConnConfig) : StOK resolve {} := by
  refine ⟨fun c cfg h => ?_, List.nodup_nil, fun c => ?_⟩
  · simp [List.lookup] at h
  · simp [List.lookup]

theorem get_or_create_config_spec (resolve : String → ConnConfig)
    (st : BatchState) (conn_id : String) (h : StOK resolve st) :
    (get_or_create_config resolve st conn_id).1 = resolve conn_id ∧
    StOK resolve (get_or_create_config resolve st conn_id).2 ∧
    (∀ c, c ∈ (get_or_create_config resolve st conn_id).2.resolve_log ↔
      (c ∈ st.resolve_log ∨ c = conn_id)) ∧
    (get_or_create_config resolve st conn_id).2.client_calls =
      st.client_calls := by
  obtain ⟨hc, hnd, hm⟩ := h
  unfold get_or_create_config
  cases hl : List.lookup conn_id st.conn_configs with
  | some cfg =>
    simp only
    refine ⟨hc _ _ hl, ⟨hc, hnd, hm⟩, fun c => ?_, trivial⟩
    constructor
    · exact fun hcl => Or.inl hcl
    · intro hcl
      rcases hcl with h1 | h1
      · exact h1
      · subst h1
        exact (hm c).mpr (by simp [hl])
  | none =>
    simp only
    have hnotmem : conn_id ∉ st.resolve_log := by
      intro hmem
      have := (hm conn_id).mp hmem
      rw [hl] at this
      simp at this
    refine ⟨trivial, ⟨?_, ?_, ?_⟩, fun c => ?_, trivial⟩
    · intro c cfg hlc
      by_cases hcc : c = conn_id
      · subst hcc
        rw [lookup_cons_self] at hlc
        exact (Option.some.injEq _ _ ▸ hlc).symm
      · rw [lookup_cons_ne _ _ hcc] at hlc
        exact hc c cfg hlc
    · exact List.Nodup.append hnd (List.nodup_singleton conn_id)
        (by simp [List.disjoint_singleton, hnotmem])
    · intro c
      by_cases hcc : c = conn_id
      · subst hcc
        simp [lookup_cons_self]
      · rw [lookup_cons_ne _ _ hcc]
        simp only [List.mem_append, List.mem_singleton]
        rw [hm c]
        simp [hcc]
    · simp only [List.mem_append, List.mem_singleton]

theorem upload_one_spec (client : UploadClient) (resolve : String → ConnConfig)
    (cid bkt : String) (st : BatchState) (item : UploadItem)
    (h : StOK resolve st) :
    (R2IndexUploadOperator.upload_one client resolve cid bkt st item).1 =
      R2IndexUploadOperator.uploadOutcome client resolve cid bkt item ∧
    StOK resolve
      (R2IndexUploadOperator.upload_one client resolve cid bkt st item).2 ∧
    (∀ c,
      c ∈ (R2IndexUploadOperator.upload_one client resolve cid bkt st
            item).2.resolve_log ↔
      (c ∈ st.resolve_log ∨ c = pyOrStr item.r2index_conn_id cid)) ∧
    (R2IndexUploadOperator.upload_one client resolve cid bkt st
        item).2.client_calls = st.client_calls + 1 := by
  obtain ⟨h1, h2, h3, h4⟩ :=
    get_or_create_config_spec resolve st (pyOrStr item.r2index_conn_id cid) h
  unfold R2IndexUploadOperator.upload_one
  simp only
  rw [h1]
  cases hc : client.upload (resolve (pyOrStr item.r2index_conn_id cid))
      (pyOrStr item.bucket bkt) item with
  | ok fr =>
    simp only [R2IndexUploadOperator.uploadOutcome, hc]
    exact ⟨trivial, h2, h3, by rw [h4]⟩
  | error e =>
    simp only [R2IndexUploadOperator.uploadOutcome, hc]
    exact ⟨trivial, h2, h3, by rw [h4]⟩

theorem upload_all_spec (client : UploadClient) (resolve : String → ConnConfig)
    (cid bkt : String) :
    ∀ (items : List UploadItem) (st : BatchState), StOK resolve st →
      (R2IndexUploadOperator.upload_all client resolve cid bkt items st).1 =
        items.map (R2IndexUploadOperator.uploadOutcome client resolve cid bkt) ∧
      StOK resolve
        (R2IndexUploadOperator.upload_all client resolve cid bkt items st).2 ∧
      (∀ c,
        c ∈ (R2IndexUploadOperator.upload_all client resolve cid bkt items
              st).2.resolve_log ↔
        (c ∈ st.resolve_log ∨
          c ∈ items.map (fun i => pyOrStr i.r2index_conn_id cid))) ∧
      (R2IndexUploadOperator.upload_all client resolve cid bkt items
          st).2.client_calls = st.client_calls + items.length := by
  intro items
  induction items with
  | nil =>
    intro st h
    exact ⟨rfl, h, fun c => by simp [R2IndexUploadOperator.upload_all], rfl⟩
  | cons item rest ih =>
    intro st h
    obtain ⟨o1, o2, o3, o4⟩ := upload_one_spec client resolve cid bkt st item h
    obtain ⟨a1, a2, a3, a4⟩ :=
      ih (R2IndexUploadOperator.upload_one client resolve cid bkt st item).2 o2
    simp only [R2IndexUploadOperator.upload_all]
    refine ⟨?_, a2, fun c => ?_, ?_⟩
    · rw [List.map_cons, ← o1, a1]
    · rw [a3 c, o3 c, List.map_cons, List.mem_cons]
      tauto
    · rw [a4, o4, List.length_cons]
      omega

theorem download_one_spec (client : DownloadClient)
    (resolve : String → ConnConfig) (cid bkt : String) (st : BatchState)
    (item : DownloadItem) (h : StOK resolve st) :
    (R2IndexDownloadOperator.download_one client resolve cid bkt st item).1 =
      R2IndexDownloadOperator.downloadOutcome client resolve cid bkt item ∧
    StOK resolve
      (R2IndexDownloadOperator.download_one client resolve cid bkt st item).2 ∧
    (∀ c,
      c ∈ (R2IndexDownloadOperator.download_one client resolve cid bkt st
            item).2.resolve_log ↔
      (c ∈ st.resolve_log ∨ c = pyOrStr item.r2index_conn_id cid)) ∧
    (R2IndexDownloadOperator.download_one client resolve cid bkt st
        item).2.client_calls = st.client_calls + 1 := by
  obtain ⟨h1, h2, h3, h4⟩ :=
    get_or_create_config_spec resolve st (pyOrStr item.r2index_conn_id cid) h
  unfold R2IndexDownloadOperator.download_one
  simp only
  rw [h1]
  cases hc : client.download (resolve (pyOrStr item.r2index_conn_id cid))
      (pyOrStr item.bucket bkt) item with
  | ok pr =>
    simp only [R2IndexDownloadOperator.downloadOutcome, hc]
    exact ⟨trivial, h2, h3, by rw [h4]⟩
  | error e =>
    simp only [R2IndexDownloadOperator.downloadOutcome, hc]
    exact ⟨trivial, h2, h3, by rw [h4]⟩

theorem download_all_spec (client : DownloadClient)
    (resolve : String → ConnConfig) (cid bkt : String) :
    ∀ (items : List DownloadItem) (st : BatchState), StOK resolve st →
      (R2IndexDownloadOperator.download_all client resolve cid bkt items
          st).1 =
        items.map
          (R2IndexDownloadOperator.downloadOutcome client resolve cid bkt) ∧
      StOK resolve
        (R2IndexDownloadOperator.download_all client resolve cid bkt items
          st).2 ∧
      (∀ c,
        c ∈ (R2IndexDownloadOperator.download_all client resolve cid bkt items
              st).2.resolve_log ↔
        (c ∈ st.resolve_log ∨
          c ∈ items.map (fun i => pyOrStr i.r2index_conn_id cid))) ∧
      (R2IndexDownloadOperator.download_all client resolve cid bkt items
          st).2.client_calls = st.client_calls + items.length := by
  intro items
  induction items with
  | nil =>
    intro st h
    exact ⟨rfl, h, fun c => by simp [R2IndexDownloadOperator.download_all], rfl⟩
  | cons item rest ih =>
    intro st h
    obtain ⟨o1, o2, o3, o4⟩ :=
      download_one_spec client resolve cid bkt st item h
    obtain ⟨a1, a2, a3, a4⟩ :=
      ih (R2IndexDownloadOperator.download_one client resolve cid bkt st
        item).2 o2
    simp only [R2IndexDownloadOperator.download_all]
    refine ⟨?_, a2, fun c => ?_, ?_⟩
    · rw [List.map_cons, ← o1, a1]
    · rw [a3 c, o3 c, List.map_cons, List.mem_cons]
      tauto
    · rw [a4, o4, List.length_cons]
      omega

/-- C1: for every item list given to a batch execute (upload or
download), the gathered result sequence is positionally the per-item
outcomes — equal to mapping the per-item outcome over the input, hence of
the same length, with the result at position i the outcome of item i
(`asyncio.gather` returns results in argument order, not completion
order); and the empty item list yields the empty result sequence with the
batch state untouched (no client transfer attempted) and `execute`
returning `.ok []` (no failure signalled). -/
theorem C1_batch_positional_results :
    (∀ (client : UploadClient) (resolve : String → ConnConfig)
       (cid bkt : String) (items : List UploadItem),
      (R2IndexUploadOperator.upload_all client resolve cid bkt items {}).1 =
        items.map
          (R2IndexUploadOperator.uploadOutcome client resolve cid bkt) ∧
      (R2IndexUploadOperator.upload_all client resolve cid bkt items
          {}).1.length = items.length) ∧
    (∀ (client : DownloadClient) (resolve : String → ConnConfig)
       (cid bkt : String) (items : List DownloadItem),
      (R2IndexDownloadOperator.download_all client resolve cid bkt items
          {}).1 =
        items.map
          (R2IndexDownloadOperator.downloadOutcome client resolve cid bkt) ∧
      (R2IndexDownloadOperator.download_all client resolve cid bkt items
          {}).1.length = items.length) ∧
    (∀ (client : UploadClient) (resolve : String → ConnConfig)
       (cid bkt : String),
      R2IndexUploadOperator.execute client resolve cid bkt [] =
        (.ok [], {}) ∧
      (R2IndexUploadOperator.execute client resolve cid bkt
          []).2.client_calls = 0) ∧
    (∀ (client : DownloadClient) (resolve : String → ConnConfig)
       (cid bkt : String),
      R2IndexDownloadOperator.execute client resolve cid bkt [] =
        (.ok [], {}) ∧
      (R2IndexDownloadOperator.execute client resolve cid bkt
          []).2.client_calls = 0) := by
  refine ⟨fun client resolve cid bkt items => ?_,
          fun client resolve cid bkt items => ?_,
          fun client resolve cid bkt => ⟨rfl, rfl⟩,
          fun client resolve cid bkt => ⟨rfl, rfl⟩⟩
  · have h :=
      (upload_all_spec client resolve cid bkt items {} (StOK_init resolve)).1
    exact ⟨h, by rw [h, List.length_map]⟩
  · have h :=
      (download_all_spec client resolve cid bkt items {} (StOK_init resolve)).1
    exact ⟨h, by rw [h, List.length_map]⟩

/-- C6: within one batch execution the configuration resolver
(`_get_client_config`) is invoked at most once per distinct effective
connection id — the resolver log is duplicate-free and contains exactly
the effective connection ids of the items — and every such id ends up
cached with that single resolved config, reused by all items sharing
it. -/
theorem C6_resolver_once_per_conn_id :
    (∀ (client : UploadClient) (resolve : String → ConnConfig)
       (cid bkt : String) (items : List UploadItem),
      (∀ c, List.count c
          (R2IndexUploadOperator.upload_all client resolve cid bkt items
            {}).2.resolve_log ≤ 1) ∧
      (∀ c, c ∈ (R2IndexUploadOperator.upload_all client resolve cid bkt items
            {}).2.resolve_log ↔
          c ∈ items.map (fun i => pyOrStr i.r2index_conn_id cid)) ∧
      (∀ c, c ∈ items.map (fun i => pyOrStr i.r2index_conn_id cid) →
        List.lookup c
            (R2IndexUploadOperator.upload_all client resolve cid bkt items
              {}).2.conn_configs = some (resolve c))) ∧
    (∀ (client : DownloadClient) (resolve : String → ConnConfig)
       (cid bkt : String) (items : List DownloadItem),
      (∀ c, List.count c
          (R2IndexDownloadOperator.download_all client resolve cid bkt items
            {}).2.resolve_log ≤ 1) ∧
      (∀ c, c ∈ (R2IndexDownloadOperator.download_all client resolve cid bkt
            items {}).2.resolve_log ↔
          c ∈ items.map (fun i => pyOrStr i.r2index_conn_id cid)) ∧
      (∀ c, c ∈ items.map (fun i => pyOrStr i.r2index_conn_id cid) →
        List.lookup c
            (R2IndexDownloadOperator.download_all client resolve cid bkt items
              {}).2.conn_configs = some (resolve c))) := by
  constructor
  · intro client resolve cid bkt items
    obtain ⟨-, ⟨hcache, hnd, hmem⟩, hlog, -⟩ :=
      upload_all_spec client resolve cid bkt items {} (StOK_init resolve)
    refine ⟨fun c => List.nodup_iff_count_le_one.mp hnd c, fun c => ?_, ?_⟩
    · rw [hlog c]
      simp
    · intro c hc
      have h1 := (hmem c).mp ((hlog c).mpr (Or.inr hc))
      cases hcl : List.lookup c
          (R2IndexUploadOperator.upload_all client resolve cid bkt items
            {}).2.conn_configs with
      | none => rw [hcl] at h1; cases h1
      | some cfg => rw [hcache c cfg hcl]
  · intro client resolve cid bkt items
    obtain ⟨-, ⟨hcache, hnd, hmem⟩, hlog, -⟩ :=
      download_all_spec client resolve cid bkt items {} (StOK_init resolve)
    refine ⟨fun c => List.nodup_iff_count_le_one.mp hnd c, fun c => ?_, ?_⟩
    · rw [hlog c]
      simp
    · intro c hc
      have h1 := (hmem c).mp ((hlog c).mpr (Or.inr hc))
      cases hcl : List.lookup c
          (R2IndexDownloadOperator.download_all client resolve cid bkt items
            {}).2.conn_configs with
      | none => rw [hcl] at h1; cases h1
      | some cfg => rw [hcache c cfg hcl]

/-- C6 witness: two upload items and two download items sharing the
default connection id reuse one cached config resolved once. -/
theorem C6_resolver_once_per_conn_id_witness :
    List.lookup "conn"
      (R2IndexUploadOperator.upload_all okUploadClient sampleResolve "conn"
        "bkt" [sampleUploadItem, badUploadItem] {}).2.conn_configs =
      some (sampleResolve "conn") ∧
    List.lookup "conn"
      (R2IndexDownloadOperator.download_all okDownloadClient sampleResolve
        "conn" "bkt" [sampleDownloadItem, badDownloadItem] {}).2.conn_configs =
      some (sampleResolve "conn") :=
  ⟨(C6_resolver_once_per_conn_id.1 okUploadClient sampleResolve "conn" "bkt"
      [sampleUploadItem, badUploadItem]).2.2 "conn" (by decide),
   (C6_resolver_once_per_conn_id.2 okDownloadClient sampleResolve "conn" "bkt"
      [sampleDownloadItem, badDownloadItem]).2.2 "conn" (by decide)⟩

/-- C3: an item whose client call raises yields an error result carrying
the message and the item's identifying field (`source` for uploads,
`source_path` for downloads), and the batch still maps every sibling item
to its own outcome at its own position (same length, nothing dropped). -/
theorem C3_item_failure_isolated :
    (∀ (client : UploadClient) (resolve : String → ConnConfig)
       (cid bkt : String) (items : List UploadItem),
      (∀ (item : UploadItem) (e : String),
        client.upload (resolve (pyOrStr item.r2index_conn_id cid))
            (pyOrStr item.bucket bkt) item = .error e →
        R2IndexUploadOperator.uploadOutcome client resolve cid bkt item =
          [("status", .str "error"), ("message", .str e),
           ("source", .str item.source)]) ∧
      (R2IndexUploadOperator.upload_all client resolve cid bkt items {}).1 =
        items.map
          (R2IndexUploadOperator.uploadOutcome client resolve cid bkt) ∧
      (R2IndexUploadOperator.upload_all client resolve cid bkt items
          {}).1.length = items.length) ∧
    (∀ (client : DownloadClient) (resolve : String → ConnConfig)
       (cid bkt : String) (items : List DownloadItem),
      (∀ (item : DownloadItem) (e : String),
        client.download (resolve (pyOrStr item.r2index_conn_id cid))
            (pyOrStr item.bucket bkt) item = .error e →
        R2IndexDownloadOperator.downloadOutcome client resolve cid bkt item =
          [("status", .str "error"), ("message", .str e),
           ("source_path", .str item.source_path)]) ∧
      (R2IndexDownloadOperator.download_all client resolve cid bkt items
          {}).1 =
        items.map
          (R2IndexDownloadOperator.downloadOutcome client resolve cid bkt) ∧
      (R2IndexDownloadOperator.download_all client resolve cid bkt items
          {}).1.length = items.length) := by
  constructor
  · intro client resolve cid bkt items
    have h :=
      (upload_all_spec client resolve cid bkt items {} (StOK_init resolve)).1
    refine ⟨fun item e he => ?_, h, by rw [h, List.length_map]⟩
    unfold R2IndexUploadOperator.uploadOutcome
    rw [he]
  · intro client resolve cid bkt items
    have h :=
      (download_all_spec client resolve cid bkt items {} (StOK_init resolve)).1
    refine ⟨fun item e he => ?_, h, by rw [h, List.length_map]⟩
    unfold R2IndexDownloadOperator.downloadOutcome
    rw [he]

/-- C3 witness: a client failing on one specific item produces that
item's error record. -/
theorem C3_item_failure_isolated_witness :
    R2IndexUploadOperator.uploadOutcome mixedUploadClient sampleResolve
      "conn" "bkt" badUploadItem =
      [("status", .str "error"), ("message", .str "boom"),
       ("source", .str "/tmp/bad.csv")] ∧
    R2IndexDownloadOperator.downloadOutcome mixedDownloadClient sampleResolve
      "conn" "bkt" badDownloadItem =
      [("status", .str "error"), ("message", .str "net down"),
       ("source_path", .str "data/missing")] :=
  ⟨(C3_item_failure_isolated.1 mixedUploadClient sampleResolve "conn" "bkt"
      []).1 badUploadItem "boom" rfl,
   (C3_item_failure_isolated.2 mixedDownloadClient sampleResolve "conn" "bkt"
      []).1 badDownloadItem "net down" rfl⟩

theorem isEmpty_map {α β : Type} (f : α → β) (l : List α) :
    (l.map f).isEmpty = l.isEmpty := by
  cases l <;> rfl

theorem isErrorResult_uploadOutcome (client : UploadClient)
    (resolve : String → ConnConfig) (cid bkt : String) (item : UploadItem) :
    R2IndexUploadOperator.isErrorResult
      (R2IndexUploadOperator.uploadOutcome client resolve cid bkt item) =
      uploadFailed client resolve cid bkt item := by
  unfold R2IndexUploadOperator.isErrorResult
    R2IndexUploadOperator.uploadOutcome uploadFailed
  cases client.upload (resolve (pyOrStr item.r2index_conn_id cid))
      (pyOrStr item.bucket bkt) item with
  | ok fr => simp [dictGet, lookup_cons_self]
  | error e => simp [dictGet, lookup_cons_self]

theorem isErrorResult_downloadOutcome (client : DownloadClient)
    (resolve : String → ConnConfig) (cid bkt : String) (item : DownloadItem) :
    R2IndexUploadOperator.isErrorResult
      (R2IndexDownloadOperator.downloadOutcome client resolve cid bkt item) =
      downloadFailed client resolve cid bkt item := by
  unfold R2IndexUploadOperator.isErrorResult
    R2IndexDownloadOperator.downloadOutcome downloadFailed
  cases client.download (resolve (pyOrStr item.r2index_conn_id cid))
      (pyOrStr item.bucket bkt) item with
  | ok pr => simp [dictGet, lookup_cons_self]
  | error e => simp [dictGet, lookup_cons_self]

theorem fileRecord_uploadOutcome (client : UploadClient)
    (resolve : String → ConnConfig) (cid bkt : String) (item : UploadItem) :
    (dictGet (R2IndexUploadOperator.uploadOutcome client resolve cid bkt item)
        "file_record").getD .null =
      uploadRecord client resolve cid bkt item := by
  unfold R2IndexUploadOperator.uploadOutcome uploadRecord
  cases client.upload (resolve (pyOrStr item.r2index_conn_id cid))
      (pyOrStr item.bucket bkt) item with
  | ok fr =>
    rw [show dictGet [("status", JVal.str "success"), ("file_record", fr)]
        "file_record" = some fr from rfl]
    rfl
  | error e => rfl

theorem payload_downloadOutcome (client : DownloadClient)
    (resolve : String → ConnConfig) (cid bkt : String) (item : DownloadItem) :
    [("path",
      (dictGet (R2IndexDownloadOperator.downloadOutcome client resolve cid bkt
        item) "path").getD .null),
     ("file_record",
      (dictGet (R2IndexDownloadOperator.downloadOutcome client resolve cid bkt
        item) "file_record").getD .null)] =
      downloadPayload client resolve cid bkt item := by
  unfold R2IndexDownloadOperator.downloadOutcome downloadPayload
  cases client.download (resolve (pyOrStr item.r2index_conn_id cid))
      (pyOrStr item.bucket bkt) item with
  | ok pr => rfl
  | error e => rfl

/-- What `R2IndexUploadOperator.execute` returns, characterised by the
per-item client outcomes: `.ok` with all the file records when no item
fails, else the batch failure message with the exact failed/total
counts. -/
theorem execute_upload_characterisation (client : UploadClient)
    (resolve : String → ConnConfig) (cid bkt : String)
    (items : List UploadItem) :
    (R2IndexUploadOperator.execute client resolve cid bkt items).1 =
      (if (items.filter (uploadFailed client resolve cid bkt)).isEmpty then
        .ok (items.map (uploadRecord client resolve cid bkt))
       else
        .error
          (toString (items.filter (uploadFailed client resolve cid
              bkt)).length ++
            "/" ++ toString items.length ++ " uploads failed")) := by
  have hall :=
    (upload_all_spec client resolve cid bkt items {} (StOK_init resolve)).1
  have h1 : (items.map (R2IndexUploadOperator.uploadOutcome client resolve cid
        bkt)).filter R2IndexUploadOperator.isErrorResult =
      (items.filter (uploadFailed client resolve cid bkt)).map
        (R2IndexUploadOperator.uploadOutcome client resolve cid bkt) := by
    rw [List.filter_map]
    congr 1
    exact List.filter_congr
      (fun a _ => isErrorResult_uploadOutcome client resolve cid bkt a)
  unfold R2IndexUploadOperator.execute
  simp only
  rw [hall, h1, isEmpty_map]
  by_cases hc : (items.filter (uploadFailed client resolve cid bkt)).isEmpty =
      true
  · rw [if_pos hc, if_pos hc]
    show Except.ok _ = Except.ok _
    rw [List.map_map]
    exact congrArg Except.ok
      (List.map_congr_left
        (fun a _ => fileRecord_uploadOutcome client resolve cid bkt a))
  · rw [if_neg hc, if_neg hc]
    show Except.error _ = Except.error _
    rw [List.length_map, List.length_map]

/-- What `R2IndexDownloadOperator.execute` returns, characterised by the
per-item client outcomes. -/
theorem execute_download_characterisation (client : DownloadClient)
    (resolve : String → ConnConfig) (cid bkt : String)
    (items : List DownloadItem) :
    (R2IndexDownloadOperator.execute client resolve cid bkt items).1 =
      (if (items.filter (downloadFailed client resolve cid bkt)).isEmpty then
        .ok (items.map (downloadPayload client resolve cid bkt))
       else
        .error
          (toString (items.filter (downloadFailed client resolve cid
              bkt)).length ++
            "/" ++ toString items.length ++ " downloads failed")) := by
  have hall :=
    (download_all_spec client resolve cid bkt items {} (StOK_init resolve)).1
  have h1 : (items.map (R2IndexDownloadOperator.downloadOutcome client resolve
        cid bkt)).filter R2IndexUploadOperator.isErrorResult =
      (items.filter (downloadFailed client resolve cid bkt)).map
        (R2IndexDownloadOperator.downloadOutcome client resolve cid bkt) := by
    rw [List.filter_map]
    congr 1
    exact List.filter_congr
      (fun a _ => isErrorResult_downloadOutcome client resolve cid bkt a)
  unfold R2IndexDownloadOperator.execute
  simp only
  rw [hall, h1, isEmpty_map]
  by_cases hc : (items.filter (downloadFailed client resolve cid
      bkt)).isEmpty = true
  · rw [if_pos hc, if_pos hc]
    show Except.ok _ = Except.ok _
    rw [List.map_map]
    exact congrArg Except.ok
      (List.map_congr_left
        (fun a _ => payload_downloadOutcome client resolve cid bkt a))
  · rw [if_neg hc, if_neg hc]
    show Except.error _ = Except.error _
    rw [List.length_map, List.length_map]

/-- C2: after all item transfers complete, `execute` raises iff at least
one item's result is a failure; the raised message reports the exact
failed/total counts (`"f/t uploads failed"`, `"f/t downloads failed"`);
and when every item succeeds no exception is raised and the per-item
success payloads are returned. -/
theorem C2_batch_failure_iff_any_item_failed :
    (∀ (client : UploadClient) (resolve : String → ConnConfig)
       (cid bkt : String) (items : List UploadItem),
      ((items.filter (uploadFailed client resolve cid bkt)).length = 0 →
        (R2IndexUploadOperator.execute client resolve cid bkt items).1 =
          .ok (items.map (uploadRecord client resolve cid bkt))) ∧
      ((items.filter (uploadFailed client resolve cid bkt)).length ≠ 0 →
        (R2IndexUploadOperator.execute client resolve cid bkt items).1 =
          .error
            (toString (items.filter (uploadFailed client resolve cid
                bkt)).length ++
              "/" ++ toString items.length ++ " uploads failed")) ∧
      ((∃ e, (R2IndexUploadOperator.execute client resolve cid bkt
          items).1 = .error e) ↔
        (items.filter (uploadFailed client resolve cid bkt)).length ≠ 0)) ∧
    (∀ (client : DownloadClient) (resolve : String → ConnConfig)
       (cid bkt : String) (items : List DownloadItem),
      ((items.filter (downloadFailed client resolve cid bkt)).length = 0 →
        (R2IndexDownloadOperator.execute client resolve cid bkt items).1 =
          .ok (items.map (downloadPayload client resolve cid bkt))) ∧
      ((items.filter (downloadFailed client resolve cid bkt)).length ≠ 0 →
        (R2IndexDownloadOperator.execute client resolve cid bkt items).1 =
          .error
            (toString (items.filter (downloadFailed client resolve cid
                bkt)).length ++
              "/" ++ toString items.length ++ " downloads failed")) ∧
      ((∃ e, (R2IndexDownloadOperator.execute client resolve cid bkt
          items).1 = .error e) ↔
        (items.filter (downloadFailed client resolve cid bkt)).length ≠ 0)) := by
  constructor
  · intro client resolve cid bkt items
    have hch := execute_upload_characterisation client resolve cid bkt items
    have hiff : (items.filter (uploadFailed client resolve cid
        bkt)).isEmpty = true ↔
        (items.filter (uploadFailed client resolve cid bkt)).length = 0 := by
      rw [List.isEmpty_iff, List.length_eq_zero]
    refine ⟨fun h0 => ?_, fun hn => ?_, ?_⟩
    · rw [hch, if_pos (hiff.mpr h0)]
    · rw [hch, if_neg (fun hx => hn (hiff.mp hx))]
    · constructor
      · rintro ⟨e, he⟩ h0
        rw [hch, if_pos (hiff.mpr h0)] at he
        cases he
      · intro hn
        exact ⟨toString (items.filter (uploadFailed client resolve cid
              bkt)).length ++ "/" ++ toString items.length ++
            " uploads failed",
          by rw [hch, if_neg (fun hx => hn (hiff.mp hx))]⟩
  · intro client resolve cid bkt items
    have hch := execute_download_characterisation client resolve cid bkt items
    have hiff : (items.filter (downloadFailed client resolve cid
        bkt)).isEmpty = true ↔
        (items.filter (downloadFailed client resolve cid bkt)).length = 0 := by
      rw [List.isEmpty_iff, List.length_eq_zero]
    refine ⟨fun h0 => ?_, fun hn => ?_, ?_⟩
    · rw [hch, if_pos (hiff.mpr h0)]
    · rw [hch, if_neg (fun hx => hn (hiff.mp hx))]
    · constructor
      · rintro ⟨e, he⟩ h0
        rw [hch, if_pos (hiff.mpr h0)] at he
        cases he
      · intro hn
        exact ⟨toString (items.filter (downloadFailed client resolve cid
              bkt)).length ++ "/" ++ toString items.length ++
            " downloads failed",
          by rw [hch, if_neg (fun hx => hn (hiff.mp hx))]⟩

/-- C2 witness: an all-success batch returns results without raising; a
batch with one failing item out of two raises with the `1/2` count. -/
theorem C2_batch_failure_iff_any_item_failed_witness :
    (R2IndexUploadOperator.execute okUploadClient sampleResolve "conn" "bkt"
        [sampleUploadItem]).1 =
      .ok ([sampleUploadItem].map
        (uploadRecord okUploadClient sampleResolve "conn" "bkt")) ∧
    (R2IndexUploadOperator.execute mixedUploadClient sampleResolve "conn"
        "bkt" [sampleUploadItem, badUploadItem]).1 =
      .error
        (toString ([sampleUploadItem, badUploadItem].filter
            (uploadFailed mixedUploadClient sampleResolve "conn"
              "bkt")).length ++
          "/" ++ toString [sampleUploadItem, badUploadItem].length ++
          " uploads failed") ∧
    (R2IndexDownloadOperator.execute okDownloadClient sampleResolve "conn"
        "bkt" [sampleDownloadItem]).1 =
      .ok ([sampleDownloadItem].map
        (downloadPayload okDownloadClient sampleResolve "conn" "bkt")) ∧
    (R2IndexDownloadOperator.execute mixedDownloadClient sampleResolve "conn"
        "bkt" [sampleDownloadItem, badDownloadItem]).1 =
      .error
        (toString ([sampleDownloadItem, badDownloadItem].filter
            (downloadFailed mixedDownloadClient sampleResolve "conn"
              "bkt")).length ++
          "/" ++ toString [sampleDownloadItem, badDownloadItem].length ++
          " downloads failed") :=
  ⟨(C2_batch_failure_iff_any_item_failed.1 okUploadClient sampleResolve
      "conn" "bkt" [sampleUploadItem]).1 rfl,
   (C2_batch_failure_iff_any_item_failed.1 mixedUploadClient sampleResolve
      "conn" "bkt" [sampleUploadItem, badUploadItem]).2.1 (by decide),
   (C2_batch_failure_iff_any_item_failed.2 okDownloadClient sampleResolve
      "conn" "bkt" [sampleDownloadItem]).1 rfl,
   (C2_batch_failure_iff_any_item_failed.2 mixedDownloadClient sampleResolve
      "conn" "bkt" [sampleDownloadItem, badDownloadItem]).2.1 (by decide)⟩

/-- C7 counterexample: on an all-success single-item upload batch,
`execute` returns the bare `file_record` dumps — the returned element
carries no `status` field at all, refuting the claim that every element
of the value returned to the host carries a status field equal to
`success` or `error`. -/
theorem C7_returned_value_counterexample :
    (R2IndexUploadOperator.execute okUploadClient sampleResolve "conn" "bkt"
        [sampleUploadItem]).1 = .ok [sampleRecord] ∧
    sampleRecord.getKey "status" = none :=
  ⟨rfl, rfl⟩

/-- C7 (amended): the internal gathered result sequence is ordered 1:1
with the items and each element carries `status` equal to `"success"` or
`"error"` together with the optional `file_record`/`path`/`message`
fields; but the value `execute` returns to the host — produced only when
no item failed — is that sequence with the payload extracted (the
`file_record` dump per upload item, the
`\x7bpath, file_record\x7d` dict per download item) and no status field;
when some item failed, `execute` raises instead of returning the
results. -/
theorem C7_results_surfacing :
    (∀ (client : UploadClient) (resolve : String → ConnConfig)
       (cid bkt : String) (items : List UploadItem),
      (∀ r ∈ (R2IndexUploadOperator.upload_all client resolve cid bkt items
          {}).1,
        dictGet r "status" = some (.str "success") ∨
        dictGet r "status" = some (.str "error")) ∧
      ((items.filter (uploadFailed client resolve cid bkt)).length = 0 →
        (R2IndexUploadOperator.execute client resolve cid bkt items).1 =
          .ok (items.map (uploadRecord client resolve cid bkt)))) ∧
    (∀ (client : DownloadClient) (resolve : String → ConnConfig)
       (cid bkt : String) (items : List DownloadItem),
      (∀ r ∈ (R2IndexDownloadOperator.download_all client resolve cid bkt
          items {}).1,
        dictGet r "status" = some (.str "success") ∨
        dictGet r "status" = some (.str "error")) ∧
      ((items.filter (downloadFailed client resolve cid bkt)).length = 0 →
        (R2IndexDownloadOperator.execute client resolve cid bkt items).1 =
          .ok (items.map (downloadPayload client resolve cid bkt)))) := by
  constructor
  · intro client resolve cid bkt items
    have hall :=
      (upload_all_spec client resolve cid bkt items {} (StOK_init resolve)).1
    constructor
    · intro r hr
      rw [hall] at hr
      obtain ⟨a, ha, rfl⟩ := List.mem_map.mp hr
      unfold R2IndexUploadOperator.uploadOutcome
      cases client.upload (resolve (pyOrStr a.r2index_conn_id cid))
          (pyOrStr a.bucket bkt) a with
      | ok fr => exact Or.inl rfl
      | error e => exact Or.inr rfl
    · intro h0
      have hch := execute_upload_characterisation client resolve cid bkt items
      rw [hch,
        if_pos ((List.isEmpty_iff.trans List.length_eq_zero.symm).mpr h0)]
  · intro client resolve cid bkt items
    have hall :=
      (download_all_spec client resolve cid bkt items {} (StOK_init resolve)).1
    constructor
    · intro r hr
      rw [hall] at hr
      obtain ⟨a, ha, rfl⟩ := List.mem_map.mp hr
      unfold R2IndexDownloadOperator.downloadOutcome
      cases client.download (resolve (pyOrStr a.r2index_conn_id cid))
          (pyOrStr a.bucket bkt) a with
      | ok pr => exact Or.inl rfl
      | error e => exact Or.inr rfl
    · intro h0
      have hch :=
        execute_download_characterisation client resolve cid bkt items
      rw [hch,
        if_pos ((List.isEmpty_iff.trans List.length_eq_zero.symm).mpr h0)]

/-- C7 witness: a success result dict and an error result dict both carry
a status field, and an all-success download batch returns its payload
list. -/
theorem C7_results_surfacing_witness :
    (dictGet [("status", JVal.str "error"), ("message", JVal.str "boom"),
        ("source", JVal.str "/tmp/bad.csv")] "status" =
      some (.str "success") ∨
     dictGet [("status", JVal.str "error"), ("message", JVal.str "boom"),
        ("source", JVal.str "/tmp/bad.csv")] "status" =
      some (.str "error")) ∧
    (R2IndexDownloadOperator.execute okDownloadClient sampleResolve "conn"
        "bkt" [sampleDownloadItem]).1 =
      .ok ([sampleDownloadItem].map
        (downloadPayload okDownloadClient sampleResolve "conn" "bkt")) :=
  ⟨(C7_results_surfacing.1 mixedUploadClient sampleResolve "conn" "bkt"
      [badUploadItem]).1
      [("status", JVal.str "error"), ("message", JVal.str "boom"),
       ("source", JVal.str "/tmp/bad.csv")]
      (by exact List.mem_singleton_self _),
   (C7_results_surfacing.2 okDownloadClient sampleResolve "conn" "bkt"
      [sampleDownloadItem]).2 rfl⟩

/-- C4: configuration resolution is the three-tier first-usable chain
vault → direct → environment with usable = truthy `index_api_url`: a
usable connection-tier config is returned as-is; a missing or non-usable
connection-tier result falls back to the environment tier; when the
connection carries a truthy vault reference, the connection tier is the
vault resolution alone (the direct fields, present or not, are ignored);
and the environment tier is total — absent variables just yield empty
(`none`) fields. -/
theorem C4_config_priority_chain :
    (∀ (store : ConnStore) (vault : Vault) (env : Env) (conn_id : String),
      (∀ cfg, get_config_from_connection store vault conn_id = some cfg →
        pyTruthyOpt cfg.index_api_url = true →
        get_client_config store vault env conn_id = cfg) ∧
      (∀ cfg, get_config_from_connection store vault conn_id = some cfg →
        pyTruthyOpt cfg.index_api_url = false →
        get_client_config store vault env conn_id =
          get_config_from_env env) ∧
      (get_config_from_connection store vault conn_id = none →
        get_client_config store vault env conn_id =
          get_config_from_env env) ∧
      (∀ conn, store.get_connection conn_id = .ok conn →
        pyTruthyOpt conn.vault_conn_id = true →
        get_config_from_connection store vault conn_id =
          (if pyTruthyMapping conn.vault_secrets_mapping then
            get_config_from_vault vault (conn.vault_secrets_mapping.getD [])
           else none))) ∧
    get_config_from_env ⟨none, none, none, none, none⟩ =
      ⟨none, none, none, none, none⟩ := by
  refine ⟨fun store vault env conn_id => ⟨?_, ?_, ?_, ?_⟩, rfl⟩
  · intro cfg hc ht
    unfold get_client_config
    rw [hc]
    simp [ht]
  · intro cfg hc ht
    unfold get_client_config
    rw [hc]
    simp [ht]
  · intro hc
    unfold get_client_config
    rw [hc]
  · intro conn hs ht
    unfold get_config_from_connection
    rw [hs]
    simp [ht]

/-- C4 witness: a usable direct connection wins over the environment; a
connection without a usable API URL and a missing connection both fall
back to the environment; a connection with a vault reference resolves
through the vault even though its direct fields are set. -/
theorem C4_config_priority_chain_witness :
    get_client_config sampleStore sampleVault sampleEnv "direct" =
      ⟨some "https://direct", some "pw", some "ak", some "sk", some "ep"⟩ ∧
    get_client_config emptyUrlStore sampleVault sampleEnv "whatever" =
      get_config_from_env sampleEnv ∧
    get_client_config sampleStore sampleVault sampleEnv "missing" =
      get_config_from_env sampleEnv ∧
    get_config_from_connection sampleStore sampleVault "vaulted" =
      (if pyTruthyMapping vaultConnection.vault_secrets_mapping then
        get_config_from_vault sampleVault
          (vaultConnection.vault_secrets_mapping.getD [])
       else none) :=
  ⟨((C4_config_priority_chain.1 sampleStore sampleVault sampleEnv
      "direct").1 _ rfl (by decide)),
   ((C4_config_priority_chain.1 emptyUrlStore sampleVault sampleEnv
      "whatever").2.1 _ rfl (by decide)),
   ((C4_config_priority_chain.1 sampleStore sampleVault sampleEnv
      "missing").2.2.1 rfl),
   ((C4_config_priority_chain.1 sampleStore sampleVault sampleEnv
      "vaulted").2.2.2 vaultConnection rfl (by decide))⟩

/-- C5: during vault-mediated resolution, an absent secret at the path
serving one config key leaves only that key `none` — the other keys keep
their fetched values and the resolution still returns a config — while a
vault backend that raises makes the whole resolution return `none`
without propagating the exception. -/
theorem C5_vault_failure_granularity :
    (∀ (f : String → Except String (Option (List (String × String))))
       (va vb vd ve : String),
      f "pa" = .ok (some [("ka", va)]) →
      f "pb" = .ok (some [("kb", vb)]) →
      f "pc" = .ok none →
      f "pd" = .ok (some [("kd", vd)]) →
      f "pe" = .ok (some [("ke", ve)]) →
      get_config_from_vault ⟨f⟩ vaultSecretsMapping5 =
        some ⟨some va, some vb, none, some vd, some ve⟩) ∧
    (∀ (f : String → Except String (Option (List (String × String))))
       (e : String),
      (∀ p, f p = .error e) →
      get_config_from_vault ⟨f⟩ vaultSecretsMapping5 = none) := by
  constructor
  · intro f va vb vd ve hfa hfb hfc hfd hfe
    have p1 : parse_secret_ref "pa#ka" "r2index_api_url" = ("pa", "ka") := by
      decide
    have p2 : parse_secret_ref "pb#kb" "r2index_api_token" = ("pb", "kb") := by
      decide
    have p3 : parse_secret_ref "pc#kc" "r2_access_key_id" = ("pc", "kc") := by
      decide
    have p4 : parse_secret_ref "pd#kd" "r2_secret_access_key" =
        ("pd", "kd") := by decide
    have p5 : parse_secret_ref "pe#ke" "r2_endpoint_url" = ("pe", "ke") := by
      decide
    simp [get_config_from_vault, get_secret_value, vaultSecretsMapping5,
      p1, p2, p3, p4, p5, hfa, hfb, hfc, hfd, hfe, List.lookup]
  · intro f e hf
    have p1 : parse_secret_ref "pa#ka" "r2index_api_url" = ("pa", "ka") := by
      decide
    simp [get_config_from_vault, get_secret_value, vaultSecretsMapping5,
      p1, hf, List.lookup]

/-- C5 witness: a concrete vault missing only path `pc` yields a config
whose `r2_access_key_id` alone is `none`; a concrete raising vault yields
no config. -/
theorem C5_vault_failure_granularity_witness :
    get_config_from_vault ⟨sampleVaultFun⟩ vaultSecretsMapping5 =
      some ⟨some "https://api", some "tok", none, some "sk", some "ep"⟩ ∧
    get_config_from_vault ⟨failingVaultFun⟩ vaultSecretsMapping5 = none :=
  ⟨(C5_vault_failure_granularity.1 sampleVaultFun "https://api" "tok" "sk"
      "ep" rfl rfl rfl rfl rfl),
   (C5_vault_failure_granularity.2 failingVaultFun "vault sealed"
      (fun _ => rfl))⟩

/-- C9: `_parse_secret_ref` splits a secret reference on the last `#`
into (path, key); a reference without `#` parses to the whole reference
as path with the config-key name as key; in particular
`"cloudflare/r2index#api-url"` parses to
`("cloudflare/r2index", "api-url")` and `"cloudflare/r2index"` with
default key `"r2index_api_url"` parses to
`("cloudflare/r2index", "r2index_api_url")`. -/
theorem C9_parse_secret_ref_last_hash :
    (∀ secret_ref default_key : String,
      (('#' ∉ secret_ref.toList) →
        parse_secret_ref secret_ref default_key = (secret_ref, default_key)) ∧
      (∀ p k : String, parse_secret_ref secret_ref default_key = (p, k) →
        ('#' ∈ secret_ref.toList) →
        secret_ref.toList = p.toList ++ '#' :: k.toList ∧ '#' ∉ k.toList)) ∧
    parse_secret_ref "cloudflare/r2index#api-url" "r2index_api_url" =
      ("cloudflare/r2index", "api-url") ∧
    parse_secret_ref "cloudflare/r2index" "r2index_api_url" =
      ("cloudflare/r2index", "r2index_api_url") := by
  refine ⟨fun secret_ref default_key => ⟨?_, ?_⟩, by decide, by decide⟩
  · intro hno
    have h0 : rsplitLast '#' secret_ref.data = none :=
      (rsplitLast_eq_none_iff _ _).mpr hno
    simp [parse_secret_ref, h0]
  · intro p k hpk hmem
    unfold parse_secret_ref at hpk
    simp only [String.toList] at hpk
    cases h0 : rsplitLast '#' secret_ref.data with
    | none =>
      exact absurd hmem ((rsplitLast_eq_none_iff _ _).mp h0)
    | some pr =>
      obtain ⟨p0, k0⟩ := pr
      rw [h0] at hpk
      simp only [Prod.mk.injEq] at hpk
      obtain ⟨hp, hk⟩ := hpk
      obtain ⟨hl, hnk⟩ := rsplitLast_eq_some '#' secret_ref.toList p0 k0 h0
      subst hp
      subst hk
      exact ⟨hl, hnk⟩

/-- C9 witness: concrete instantiations discharging both hypotheses. -/
theorem C9_parse_secret_ref_last_hash_witness :
    parse_secret_ref "cloudflare/r2index" "r2index_api_url" =
      ("cloudflare/r2index", "r2index_api_url") ∧
    ("cloudflare/r2index#api-url".toList =
      "cloudflare/r2index".toList ++ '#' :: "api-url".toList ∧
     '#' ∉ "api-url".toList) :=
  ⟨(C9_parse_secret_ref_last_hash.1 "cloudflare/r2index" "r2index_api_url").1
      (by decide),
   (C9_parse_secret_ref_last_hash.1 "cloudflare/r2index#api-url"
        "r2index_api_url").2 "cloudflare/r2index" "api-url" (by decide)
      (by decide)⟩

/-- C8 counterexample: the claim renders links on the
`r2index.example.com` domain, but `get_link` on `\x7b"id": "abc123"\x7d`
produces a URL on `r2index.elaunira.com`, not
`https://r2index.example.com/files/abc123`. -/
theorem C8_get_link_counterexample :
    get_link (some (.obj [("id", .str "abc123")])) ≠
      "https://r2index.example.com/files/abc123" := by decide

/-- C8 (amended): `get_link` yields
`https://r2index.elaunira.com/files/` followed by the id for a persisted
value shaped `\x7bid: ...\x7d` or `\x7bfile_record: \x7bid: ...\x7d\x7d`,
and the empty string when no identifier is present, e.g. for the empty
dict or an absent value. -/
theorem C8_get_link_url :
    get_link (some (.obj [("id", .str "abc123")])) =
      "https://r2index.elaunira.com/files/abc123" ∧
    get_link (some (.obj [("file_record", .obj [("id", .str "xyz")])])) =
      "https://r2index.elaunira.com/files/xyz" ∧
    get_link (some (.obj [])) = "" ∧
    get_link none = "" := by
  exact ⟨rfl, rfl, rfl, rfl⟩

/-- C10: constructing an operator with a single item is normalised at
construction to the singleton list, so `execute` behaves identically on
`items = item` and `items = [item]`. -/
theorem C10_single_item_normalisation :
    (∀ (item : UploadItem) (client : UploadClient)
       (resolve : String → ConnConfig) (cid bkt : String),
      normalize_upload_items (.inl item) = [item] ∧
      R2IndexUploadOperator.execute client resolve cid bkt
          (normalize_upload_items (.inl item)) =
        R2IndexUploadOperator.execute client resolve cid bkt [item]) ∧
    (∀ (item : DownloadItem) (client : DownloadClient)
       (resolve : String → ConnConfig) (cid bkt : String),
      normalize_download_items (.inl item) = [item] ∧
      R2IndexDownloadOperator.execute client resolve cid bkt
          (normalize_download_items (.inl item)) =
        R2IndexDownloadOperator.execute client resolve cid bkt [item]) :=
  ⟨fun _ _ _ _ _ => ⟨rfl, rfl⟩, fun _ _ _ _ _ => ⟨rfl, rfl⟩⟩

end R2Index
